import Mathlib

/-!
Shallow embedding of the real-time exchange-messaging subsystem of the
SKILLSWAP repository, together with the theorems settling the frozen claims
about it.

Embedding conventions:
- The JavaScript `Map` objects (`this.exchanges` in `MemStorage`, the
  WebSocket `clients` map in `server/routes.ts`) are modelled as functions
  `Nat → Option _`; `Map.get` is application, `Map.set`/`Map.delete` are
  pointwise updates.  The `clients` map is keyed by `userId.toString()` and
  the per-connection `clientId` variable is a string initialised to
  "unknown"; since `toString` is injective on numbers and never yields
  "unknown", numeric keys are modelled by the `Nat` itself and the
  "unknown" sentinel by `none`, so `clientId : Option Nat`.
- JavaScript truthiness of a numeric field (`if (userId)`,
  `senderId && ...`) is modelled on `Option Nat` as "`some n` with
  `n ≠ 0`"; `exchangeId || null` is `jsOrNull`.
- Timestamps (`new Date()`) are modelled as `Nat` values supplied by the
  caller as a `now` parameter; the nullable `updated_at` column is
  `Option Nat`.
- Exchange statuses are stored as strings, exactly as in the `text` column
  and the string comparisons of the handler.
- A throwing `await storage.createMessage(...)` is modelled by the
  `persistFails` parameter of the frame handler: when true, control jumps
  to the `catch` block with the store unchanged.
-/

namespace SkillSwap

/-- An exchange row, after `shared/schema.ts` (`exchanges` table): numeric
identifiers, a `status` text column and a nullable `updatedAt` timestamp. -/
structure Exchange where
  id : Nat
  requesterId : Nat
  providerId : Nat
  requestedSkillId : Nat
  offeredSkillId : Nat
  status : String
  createdAt : Nat
  updatedAt : Option Nat
deriving DecidableEq, Repr

/-- The durable exchange store (`MemStorage.exchanges`, a `Map` keyed by
exchange id). -/
def ExchangeStore := Nat → Option Exchange

/-- Lookup by id: `MemStorage.getExchangeById` / `DatabaseStorage.getExchangeById`. -/
def getExchangeById (store : ExchangeStore) (id : Nat) : Option Exchange :=
  store id

/-- Embedding of `MemStorage.updateExchangeStatus` (identical observable
behaviour to `DatabaseStorage.updateExchangeStatus`): if the id is absent
return `none` and leave the store alone; otherwise overwrite `status`,
stamp `updatedAt` with the current time, keep every other field, and store
the updated row under the same id. -/
def updateExchangeStatus (store : ExchangeStore) (id : Nat) (status : String)
    (now : Nat) : Option Exchange × ExchangeStore :=
  match getExchangeById store id with
  | none => (none, store)
  | some e =>
    let updated : Exchange := { e with status := status, updatedAt := some now }
    (some updated, fun k => if k = id then some updated else store k)

/-- The four status strings accepted by the PATCH handler
(`["pending", "accepted", "declined", "completed"].includes(status)`). -/
def validStatuses : List String := ["pending", "accepted", "declined", "completed"]

/-- Outcome of `PATCH /api/exchanges/:id/status` (routes.ts lines 545-584). -/
inductive PatchResult where
  | ok (exchange : Option Exchange)
  | notFound
  | invalidStatus
  | forbiddenProviderOnly
  | forbiddenParticipantsOnly
deriving DecidableEq, Repr

/-- HTTP status code attached to each outcome by the handler. -/
def statusCode : PatchResult → Nat
  | .ok _ => 200
  | .notFound => 404
  | .invalidStatus => 400
  | .forbiddenProviderOnly => 403
  | .forbiddenParticipantsOnly => 403

/-- Embedding of the `PATCH /api/exchanges/:id/status` handler body
(routes.ts lines 545-584), for an authenticated caller `callerId`:
404 if the exchange is missing; 400 if the requested status is not one of
the four valid strings; 403 if `accepted`/`declined` is requested by
someone other than the provider; 403 if `completed` is requested by a
non-participant; otherwise apply `updateExchangeStatus` unconditionally
(the handler performs no reachability check on the current status). -/
def patchExchangeStatus (store : ExchangeStore) (exchangeId : Nat)
    (callerId : Nat) (status : String) (now : Nat) :
    PatchResult × ExchangeStore :=
  match getExchangeById store exchangeId with
  | none => (.notFound, store)
  | some exchange =>
    if status ∉ validStatuses then
      (.invalidStatus, store)
    else if (status = "accepted" ∨ status = "declined") ∧ exchange.providerId ≠ callerId then
      (.forbiddenProviderOnly, store)
    else if status = "completed" ∧ exchange.requesterId ≠ callerId ∧ exchange.providerId ≠ callerId then
      (.forbiddenParticipantsOnly, store)
    else
      let r := updateExchangeStatus store exchangeId status now
      (.ok r.1, r.2)

/-- The WebSocket connection registry: the `clients` Map of routes.ts
(line 24), keyed by `userId.toString()` (numeric keys modelled as `Nat`),
holding the live connection handle (modelled as a `Nat` transport id). -/
def Registry := Nat → Option Nat

/-- `clients.set(k, h)`. -/
def registrySet (m : Registry) (k : Nat) (h : Nat) : Registry :=
  fun k2 => if k2 = k then some h else m k2

/-- `clients.delete(k)`. -/
def registryDelete (m : Registry) (k : Nat) : Registry :=
  fun k2 => if k2 = k then none else m k2

/-- The empty `new Map()` the server starts with. -/
def emptyRegistry : Registry := fun _ => none

/-- A message row, after `shared/schema.ts` (`messages` table):
`exchangeId` is nullable, `read` defaults to false. -/
structure Message where
  id : Nat
  senderId : Nat
  receiverId : Nat
  exchangeId : Option Nat
  content : String
  read : Bool
  createdAt : Nat
deriving DecidableEq, Repr

/-- The durable message store together with the id counter
(`MemStorage.messages` / `messageIdCounter`). -/
structure MsgStore where
  msgs : List Message
  nextId : Nat
deriving DecidableEq, Repr

/-- The store at server start: no rows, counter at 1. -/
def emptyMsgStore : MsgStore := { msgs := [], nextId := 1 }

/-- Embedding of `MemStorage.createMessage` (same observable behaviour as
`DatabaseStorage.createMessage`): assign the next id, stamp `read := false`
and the creation time, insert the row. -/
def createMessage (store : MsgStore) (senderId receiverId : Nat)
    (content : String) (exchangeId : Option Nat) (now : Nat) :
    Message × MsgStore :=
  let msg : Message :=
    { id := store.nextId, senderId := senderId, receiverId := receiverId,
      exchangeId := exchangeId, content := content, read := false,
      createdAt := now }
  (msg, { msgs := store.msgs ++ [msg], nextId := store.nextId + 1 })

/-- JavaScript `exchangeId || null`: a falsy exchange id (absent, null, or
zero) is stored as null. -/
def jsOrNull : Option Nat → Option Nat
  | some n => if n = 0 then none else some n
  | none => none

/-- Inbound frames as seen by `ws.on("message")` (routes.ts lines 48-129):
an identify frame (whose `userId` field may be missing/null, modelled by
`none`, or zero — both falsy); a chat frame (whose `senderId` may be
falsy); any other successfully parsed JSON object (no branch of the
handler matches it); or a payload on which `JSON.parse` (or the
subsequent field access, e.g. on the JSON literal null) throws, landing
in the catch block. -/
inductive InFrame where
  | identify (userId : Option Nat)
  | chat (senderId : Option Nat) (receiverId : Nat) (content : String)
      (exchangeId : Option Nat)
  | other
  | malformed
deriving DecidableEq, Repr

/-- Outbound frames (`ws.send` payloads): `system` acks (optionally
carrying a `messageId`), pushed `message` frames, and `error` frames. -/
inductive OutFrame where
  | system (msg : String) (messageId : Option Nat)
  | message (m : Message)
  | error (msg : String)
deriving DecidableEq, Repr

/-- Result of processing one inbound frame: the connection's (possibly
updated) identified userId, the shared registry, the shared message store,
the frames sent (each paired with the handle it is sent to), and whether
the handler terminated the connection (it never does). -/
structure HandlerResult where
  clientId : Option Nat
  clients : Registry
  store : MsgStore
  sent : List (Nat × OutFrame)
  closed : Bool

/-- Embedding of the `ws.on("message")` callback of routes.ts
(lines 48-129) for the connection with handle `self` and current
identified userId `clientId` (none models the initial "unknown").

- `identify`: only if `userId` is truthy, delete any previous registration
  of this connection, register the new id and ack; a falsy `userId` does
  nothing at all (lines 55-74).
- `chat`: accepted only when `senderId` is truthy and equals the
  identified userId; on acceptance persist via `createMessage` (with
  `exchangeId || null`), ack the sender with the new id, and push the
  persisted message to the receiver's registered handle when present
  (lines 76-108); otherwise reply with an error frame (lines 109-115).
  A throwing `createMessage` jumps to the catch block (lines 117-128),
  which sends an error frame.
- Any other parsed frame type matches no branch and is silently ignored.
- A payload `JSON.parse` rejects lands in the catch block: error frame.
The callback contains no `ws.close()`/`ws.terminate()`: `closed` is false
on every path. -/
def wsMessageHandler (self : Nat) (clientId : Option Nat)
    (clients : Registry) (store : MsgStore) (now : Nat)
    (persistFails : Bool) (frame : InFrame) : HandlerResult :=
  match frame with
  | .identify userId =>
    match userId with
    | some n =>
      if n ≠ 0 then
        let clients1 := match clientId with
          | some old => registryDelete clients old
          | none => clients
        { clientId := some n, clients := registrySet clients1 n self,
          store := store,
          sent := [(self, OutFrame.system "Identification successful" none)],
          closed := false }
      else
        { clientId := clientId, clients := clients, store := store,
          sent := [], closed := false }
    | none =>
      { clientId := clientId, clients := clients, store := store,
        sent := [], closed := false }
  | .chat senderId receiverId content exchangeId =>
    match senderId, clientId with
    | some s, some c =>
      if s ≠ 0 ∧ s = c then
        if persistFails then
          { clientId := clientId, clients := clients, store := store,
            sent := [(self, OutFrame.error "Failed to process message")],
            closed := false }
        else
          let r := createMessage store s receiverId content (jsOrNull exchangeId) now
          let push : List (Nat × OutFrame) :=
            match clients receiverId with
            | some h => [(h, OutFrame.message r.1)]
            | none => []
          { clientId := clientId, clients := clients, store := r.2,
            sent := (self, OutFrame.system "Message sent successfully" (some r.1.id)) :: push,
            closed := false }
      else
        { clientId := clientId, clients := clients, store := store,
          sent := [(self, OutFrame.error "Sender ID does not match your identity")],
          closed := false }
    | _, _ =>
      { clientId := clientId, clients := clients, store := store,
        sent := [(self, OutFrame.error "Sender ID does not match your identity")],
        closed := false }
  | .other =>
    { clientId := clientId, clients := clients, store := store,
      sent := [], closed := false }
  | .malformed =>
    { clientId := clientId, clients := clients, store := store,
      sent := [(self, OutFrame.error "Failed to process message")],
      closed := false }

/-- Embedding of the `ws.on("close")` callback (routes.ts lines 135-138):
`clients.delete(clientId)` with the connection's current `clientId`; while
still "unknown" the deleted key is the non-numeric string "unknown", which
never collides with a numeric registration, so the registry is unchanged. -/
def wsCloseHandler (clientId : Option Nat) (clients : Registry) : Registry :=
  match clientId with
  | some c => registryDelete clients c
  | none => clients

/-- True when at least one of the sent frames is an error frame. -/
def sendsAnError (r : HandlerResult) : Bool :=
  r.sent.any fun p =>
    match p.2 with
    | OutFrame.error _ => true
    | _ => false

/-- A completed registry operation, as performed by the handlers:
`register` is the `clients.set` of a truthy identify frame, `unregister`
the `clients.delete` run by the close callback of a connection whose
identified userId is `userId`. -/
inductive RegOp where
  | register (userId : Nat) (handle : Nat)
  | unregister (userId : Nat)
deriving DecidableEq, Repr

/-- The userId an operation concerns. -/
def opKey : RegOp → Nat
  | .register u _ => u
  | .unregister u => u

/-- Apply one operation to the registry. -/
def applyOp (m : Registry) : RegOp → Registry
  | .register u h => registrySet m u h
  | .unregister u => registryDelete m u

/-- Run a sequence of completed operations from registry `m`. -/
def runOps (m : Registry) (ops : List RegOp) : Registry :=
  ops.foldl applyOp m

/-- The most recent completed operation concerning `u`, if any. -/
def lastOpFor (u : Nat) (ops : List RegOp) : Option RegOp :=
  (ops.filter fun o => opKey o == u).getLast?

/-- Concrete exchange for the PATCH scenarios: id 7, requester 3,
provider 2, already in the terminal status "completed". -/
def exchange7completed : Exchange :=
  { id := 7, requesterId := 3, providerId := 2, requestedSkillId := 1,
    offeredSkillId := 2, status := "completed", createdAt := 0,
    updatedAt := some 0 }

/-- A store holding only `exchange7completed` under id 7. -/
def store7completed : ExchangeStore :=
  fun k => if k = 7 then some exchange7completed else none

/-- Concrete exchange for the PATCH scenarios: id 7, requester 3,
provider 2, in the initial status "pending". -/
def exchange7pending : Exchange :=
  { id := 7, requesterId := 3, providerId := 2, requestedSkillId := 1,
    offeredSkillId := 2, status := "pending", createdAt := 0,
    updatedAt := some 0 }

/-- A store holding only `exchange7pending` under id 7. -/
def store7pending : ExchangeStore :=
  fun k => if k = 7 then some exchange7pending else none

/-- Registry with user 5 registered at handle 2, for the relay scenarios. -/
def regUser5At2 : Registry := registrySet emptyRegistry 5 2

/-- Claim C2 scenario, step 1: connection A (handle 1) identifies as
user 5 on a fresh server. -/
def c2StepA : HandlerResult :=
  wsMessageHandler 1 none emptyRegistry emptyMsgStore 0 false
    (InFrame.identify (some 5))

/-- Claim C2 scenario, step 2: connection B (handle 2) identifies as the
same user 5, replacing the registration. -/
def c2StepB : HandlerResult :=
  wsMessageHandler 2 none c2StepA.clients c2StepA.store 1 false
    (InFrame.identify (some 5))

/-- Claim C2 scenario, step 3: connection A closes; its close callback
runs `clients.delete` with the userId fixed at A's identify time. -/
def c2AfterClose : Registry := wsCloseHandler c2StepA.clientId c2StepB.clients

/-- A lookup after any sequence of completed operations sees exactly the
most recent operation for that key: a `Map` keyed by userId is
last-writer-wins per key. -/
theorem runOps_eq_lastOp (m : Registry) (ops : List RegOp) (u : Nat) :
    runOps m ops u =
      match lastOpFor u ops with
      | some (RegOp.register _ h) => some h
      | some (RegOp.unregister _) => none
      | none => m u := by
  induction ops using List.reverseRecOn with
  | nil => simp [runOps, lastOpFor]
  | append_singleton as a ih =>
    have hfold : runOps m (as ++ [a]) = applyOp (runOps m as) a := by
      simp [runOps, List.foldl_append]
    by_cases hk : opKey a = u
    · have hfilter : lastOpFor u (as ++ [a]) = some a := by
        simp [lastOpFor, List.filter_append, hk]
      rw [hfold, hfilter]
      cases a with
      | register u2 h =>
        have hu : u2 = u := hk
        subst hu
        simp [applyOp, registrySet]
      | unregister u2 =>
        have hu : u2 = u := hk
        subst hu
        simp [applyOp, registryDelete]
    · have hfilter : lastOpFor u (as ++ [a]) = lastOpFor u as := by
        simp [lastOpFor, List.filter_append, hk]
      rw [hfold, hfilter]
      cases a with
      | register u2 h =>
        have hne : u ≠ u2 := fun hh => hk (by simp [opKey, hh])
        simp [applyOp, registrySet, hne, ih]
      | unregister u2 =>
        have hne : u ≠ u2 := fun hh => hk (by simp [opKey, hh])
        simp [applyOp, registryDelete, hne, ih]

/-- C1 counterexample: exchange 7 sits in the terminal status "completed"
and its provider (user 2) requests "accepted".  The claim says every
transition not reachable from the current status is rejected with an
invalid-state-transition error and the status is unchanged; the handler
instead answers 200 and persists the exchange with status "accepted". -/
theorem patch_no_invalid_state_check_cex :
    (patchExchangeStatus store7completed 7 2 "accepted" 9).1 =
      PatchResult.ok (some { exchange7completed with
        status := "accepted", updatedAt := some 9 }) ∧
    (patchExchangeStatus store7completed 7 2 "accepted" 9).2 7 =
      some { exchange7completed with status := "accepted", updatedAt := some 9 } ∧
    statusCode (patchExchangeStatus store7completed 7 2 "accepted" 9).1 = 200 := by
  refine ⟨?_, ?_, ?_⟩ <;> decide

/-- C1 (amended): the PATCH handler performs no reachability check on the
exchange's current status.  Whenever the exchange exists, the requested
status is one of the four valid strings, and the actor-authorization
checks pass (provider for accepted/declined, a participant for
completed), the transition is applied and answered 200 — from any current
status, including completed-from-pending and any transition out of
declined or completed; no invalid-state-transition error exists. -/
theorem patch_applies_any_authorized_transition
    (store : ExchangeStore) (id callerId : Nat) (status : String) (now : Nat)
    (e : Exchange) (hfound : getExchangeById store id = some e)
    (hvalid : status ∈ validStatuses)
    (hprov : status = "accepted" ∨ status = "declined" → e.providerId = callerId)
    (hpart : status = "completed" → e.requesterId = callerId ∨ e.providerId = callerId) :
    patchExchangeStatus store id callerId status now =
      (PatchResult.ok (some { e with status := status, updatedAt := some now }),
       fun k => if k = id then some { e with status := status, updatedAt := some now }
                else store k) := by
  unfold patchExchangeStatus updateExchangeStatus
  rw [hfound]
  dsimp only
  rw [if_neg (not_not_intro hvalid),
      if_neg (fun hc => hc.2 (hprov hc.1)),
      if_neg (fun hc => (hpart hc.1).elim hc.2.1 hc.2.2)]

/-- Witness for C1 (amended): the counterexample transition — "accepted"
requested by the provider on a completed exchange — goes through. -/
theorem patch_applies_any_authorized_transition_witness :
    patchExchangeStatus store7completed 7 2 "accepted" 9 =
      (PatchResult.ok (some { exchange7completed with
         status := "accepted", updatedAt := some 9 }),
       fun k => if k = 7 then some { exchange7completed with
         status := "accepted", updatedAt := some 9 } else store7completed k) :=
  patch_applies_any_authorized_transition store7completed 7 2 "accepted" 9
    exchange7completed rfl (by decide) (fun _ => rfl)
    (fun h => absurd h (by decide))

/-- C2 counterexample: connection A (handle 1) identifies as user 5, then
connection B (handle 2) identifies as the same user 5, then A closes.
The claim says lookup of user 5 still returns B's handle (2); the close
callback instead deletes the registry entry for user 5 outright, so the
lookup returns absent. -/
theorem close_clobbers_newer_registration_cex :
    c2StepB.clients 5 = some 2 ∧ c2AfterClose 5 = none ∧
    c2AfterClose 5 ≠ some 2 := by
  refine ⟨?_, ?_, ?_⟩ <;> decide

/-- C2 (amended): lookup returns the handle of the most recently completed
register for that userId, or absent when the most recent completed
operation for that userId was an unregister or none occurred — where a
connection close always performs an unregister of the userId fixed at its
identify time, even when that registration has since been replaced by
another connection (so a superseded connection's close removes the newer
handle, as the counterexample scenario shows). -/
theorem registry_lookup_matches_last_operation (ops : List RegOp) (u : Nat) :
    runOps emptyRegistry ops u =
      match lastOpFor u ops with
      | some (RegOp.register _ h) => some h
      | some (RegOp.unregister _) => none
      | none => none :=
  runOps_eq_lastOp emptyRegistry ops u

/-- C7: on an existing exchange, a request for "accepted" or "declined" by
a caller other than the provider, and a request for "completed" by a
caller who is neither requester nor provider, is answered 403 with the
store untouched; a request naming a status outside the four valid values
is answered 400 (invalid input, a distinct outcome) with the store
untouched. -/
theorem patch_authorization_and_invalid_input
    (store : ExchangeStore) (id callerId : Nat) (status : String) (now : Nat)
    (e : Exchange) (hfound : getExchangeById store id = some e) :
    ((status = "accepted" ∨ status = "declined") → e.providerId ≠ callerId →
      patchExchangeStatus store id callerId status now =
        (PatchResult.forbiddenProviderOnly, store) ∧
      statusCode (patchExchangeStatus store id callerId status now).1 = 403) ∧
    (status = "completed" → e.requesterId ≠ callerId → e.providerId ≠ callerId →
      patchExchangeStatus store id callerId status now =
        (PatchResult.forbiddenParticipantsOnly, store) ∧
      statusCode (patchExchangeStatus store id callerId status now).1 = 403) ∧
    (status ∉ validStatuses →
      patchExchangeStatus store id callerId status now =
        (PatchResult.invalidStatus, store) ∧
      statusCode (patchExchangeStatus store id callerId status now).1 = 400) := by
  refine ⟨fun hd hne => ?_, fun hc hr hp => ?_, fun hinv => ?_⟩
  · have hval : status ∈ validStatuses := by
      rcases hd with h | h <;> simp [h, validStatuses]
    have heq : patchExchangeStatus store id callerId status now =
        (PatchResult.forbiddenProviderOnly, store) := by
      unfold patchExchangeStatus
      rw [hfound]
      dsimp only
      rw [if_neg (not_not_intro hval), if_pos ⟨hd, hne⟩]
    exact ⟨heq, by rw [heq]; rfl⟩
  · have hval : status ∈ validStatuses := by simp [hc, validStatuses]
    have hd2 : ¬((status = "accepted" ∨ status = "declined") ∧ e.providerId ≠ callerId) := by
      rintro ⟨h | h, -⟩ <;> rw [hc] at h <;> exact absurd h (by decide)
    have heq : patchExchangeStatus store id callerId status now =
        (PatchResult.forbiddenParticipantsOnly, store) := by
      unfold patchExchangeStatus
      rw [hfound]
      dsimp only
      rw [if_neg (not_not_intro hval), if_neg hd2, if_pos ⟨hc, hr, hp⟩]
    exact ⟨heq, by rw [heq]; rfl⟩
  · have heq : patchExchangeStatus store id callerId status now =
        (PatchResult.invalidStatus, store) := by
      unfold patchExchangeStatus
      rw [hfound]
      dsimp only
      rw [if_pos hinv]
    exact ⟨heq, by rw [heq]; rfl⟩

/-- Witness for C7: on the pending exchange 7 (requester 3, provider 2),
the requester asking for "accepted" gets 403; an outsider (user 99)
asking for "completed" gets 403; "cancelled" gets 400. -/
theorem patch_authorization_and_invalid_input_witness :
    patchExchangeStatus store7pending 7 3 "accepted" 9 =
      (PatchResult.forbiddenProviderOnly, store7pending) ∧
    patchExchangeStatus store7pending 7 99 "completed" 9 =
      (PatchResult.forbiddenParticipantsOnly, store7pending) ∧
    patchExchangeStatus store7pending 7 5 "cancelled" 9 =
      (PatchResult.invalidStatus, store7pending) :=
  ⟨((patch_authorization_and_invalid_input store7pending 7 3 "accepted" 9
      exchange7pending rfl).1 (Or.inl rfl) (by decide)).1,
   ((patch_authorization_and_invalid_input store7pending 7 99 "completed" 9
      exchange7pending rfl).2.1 rfl (by decide) (by decide)).1,
   ((patch_authorization_and_invalid_input store7pending 7 5 "cancelled" 9
      exchange7pending rfl).2.2 (by decide)).1⟩

/-- C8: for an exchange present in the store, `updateExchangeStatus`
returns and stores a row with the new status and refreshed `updatedAt`
while every other field (id, requesterId, providerId, requestedSkillId,
offeredSkillId, createdAt) is unchanged, and every other key of the store
is untouched; for an absent id it returns none and leaves the store
exactly as it was. -/
theorem updateExchangeStatus_spec (store : ExchangeStore) (id : Nat)
    (status : String) (now : Nat) :
    (∀ e, getExchangeById store id = some e →
      ∃ e2, updateExchangeStatus store id status now =
          (some e2, fun k => if k = id then some e2 else store k) ∧
        e2.id = e.id ∧ e2.requesterId = e.requesterId ∧
        e2.providerId = e.providerId ∧
        e2.requestedSkillId = e.requestedSkillId ∧
        e2.offeredSkillId = e.offeredSkillId ∧
        e2.createdAt = e.createdAt ∧
        e2.status = status ∧ e2.updatedAt = some now ∧
        (updateExchangeStatus store id status now).2 id = some e2 ∧
        (∀ k, k ≠ id → (updateExchangeStatus store id status now).2 k = store k)) ∧
    (getExchangeById store id = none →
      updateExchangeStatus store id status now = (none, store)) := by
  constructor
  · intro e he
    have heq : updateExchangeStatus store id status now =
        (some { e with status := status, updatedAt := some now },
         fun k => if k = id then
           some { e with status := status, updatedAt := some now }
         else store k) := by
      unfold updateExchangeStatus
      rw [he]
    refine ⟨_, heq, rfl, rfl, rfl, rfl, rfl, rfl, rfl, rfl, ?_, ?_⟩
    · rw [heq]
      simp
    · intro k hk
      rw [heq]
      simp [hk]
  · intro hnone
    unfold updateExchangeStatus
    rw [hnone]

/-- Witness for C8: on the concrete pending store, updating exchange 7 to
"accepted" yields the expected row, and updating the absent id 99 returns
none with the store untouched. -/
theorem updateExchangeStatus_spec_witness :
    (∃ e2, updateExchangeStatus store7pending 7 "accepted" 9 =
        (some e2, fun k => if k = 7 then some e2 else store7pending k) ∧
      e2.id = exchange7pending.id ∧
      e2.requesterId = exchange7pending.requesterId ∧
      e2.providerId = exchange7pending.providerId ∧
      e2.requestedSkillId = exchange7pending.requestedSkillId ∧
      e2.offeredSkillId = exchange7pending.offeredSkillId ∧
      e2.createdAt = exchange7pending.createdAt ∧
      e2.status = "accepted" ∧ e2.updatedAt = some 9 ∧
      (updateExchangeStatus store7pending 7 "accepted" 9).2 7 = some e2 ∧
      (∀ k, k ≠ 7 → (updateExchangeStatus store7pending 7 "accepted" 9).2 k =
        store7pending k)) ∧
    updateExchangeStatus store7pending 99 "accepted" 9 = (none, store7pending) :=
  ⟨(updateExchangeStatus_spec store7pending 7 "accepted" 9).1 exchange7pending rfl,
   (updateExchangeStatus_spec store7pending 99 "accepted" 9).2 rfl⟩

/-- C3 counterexample: a frame whose JSON parses but whose type is neither
"identify" nor "chat".  The claim says the handler sends an error frame
back; the handler matches no branch and sends nothing at all. -/
theorem unknown_frame_silent_cex :
    sendsAnError (wsMessageHandler 1 (some 4) emptyRegistry emptyMsgStore 0
      false InFrame.other) = false ∧
    (wsMessageHandler 1 (some 4) emptyRegistry emptyMsgStore 0 false
      InFrame.other).sent = [] := by
  refine ⟨?_, ?_⟩ <;> decide

/-- C3 (amended): a parseable frame of unknown type is silently ignored —
no frame is sent and no state changes; a frame whose payload is not
parseable JSON produces exactly one error frame to the originating
connection, and in neither case is the connection terminated. -/
theorem unknown_silent_malformed_error_frame (self : Nat)
    (clientId : Option Nat) (clients : Registry) (store : MsgStore)
    (now : Nat) (persistFails : Bool) :
    wsMessageHandler self clientId clients store now persistFails InFrame.other =
      { clientId := clientId, clients := clients, store := store,
        sent := [], closed := false } ∧
    wsMessageHandler self clientId clients store now persistFails InFrame.malformed =
      { clientId := clientId, clients := clients, store := store,
        sent := [(self, OutFrame.error "Failed to process message")],
        closed := false } :=
  ⟨rfl, rfl⟩

/-- C4: a chat frame whose senderId is falsy or differs from the userId
fixed at identify time (in particular any chat frame arriving while the
connection is still unidentified) is answered with a single error frame;
the connection stays open and the message store, the registry and the
connection's identity are untouched. -/
theorem chat_sender_mismatch_rejected (self : Nat) (clientId : Option Nat)
    (clients : Registry) (store : MsgStore) (now : Nat) (persistFails : Bool)
    (senderId : Option Nat) (receiverId : Nat) (content : String)
    (exchangeId : Option Nat)
    (hmismatch : ∀ s, senderId = some s → s = 0 ∨ clientId ≠ some s) :
    wsMessageHandler self clientId clients store now persistFails
        (InFrame.chat senderId receiverId content exchangeId) =
      { clientId := clientId, clients := clients, store := store,
        sent := [(self, OutFrame.error "Sender ID does not match your identity")],
        closed := false } := by
  cases senderId with
  | none => cases clientId <;> rfl
  | some s =>
    cases clientId with
    | none => rfl
    | some c =>
      have h := hmismatch s rfl
      have hneg : ¬(s ≠ 0 ∧ s = c) := by
        rintro ⟨h0, hsc⟩
        rcases h with h1 | h1
        · exact h0 h1
        · exact h1 (congrArg some hsc.symm)
      unfold wsMessageHandler
      dsimp only
      rw [if_neg hneg]

/-- Witness for C4: connection identified as user 4 receives a chat frame
claiming senderId 9; it is rejected with an error frame and nothing is
persisted. -/
theorem chat_sender_mismatch_rejected_witness :
    wsMessageHandler 1 (some 4) emptyRegistry emptyMsgStore 0 false
        (InFrame.chat (some 9) 5 "hi" none) =
      { clientId := some 4, clients := emptyRegistry, store := emptyMsgStore,
        sent := [(1, OutFrame.error "Sender ID does not match your identity")],
        closed := false } :=
  chat_sender_mismatch_rejected 1 (some 4) emptyRegistry emptyMsgStore 0 false
    (some 9) 5 "hi" none
    (fun s hs => Or.inr (by injection hs with h2; subst h2; decide))

/-- C5: an accepted chat frame (truthy senderId equal to the identified
userId, persistence succeeding) appends exactly one message, created with
read = false, to the store; the sender receives a single acknowledgment
frame carrying the new message id; and the persisted message is pushed to
the receiver's registered handle when the lookup finds one — to that
handle only — and to nobody when the receiver is not registered. -/
theorem chat_accepted_effects (self : Nat) (clients : Registry)
    (store : MsgStore) (now : Nat) (s receiverId : Nat) (content : String)
    (exchangeId : Option Nat) (h0 : s ≠ 0) (p : Message × MsgStore)
    (hp : p = createMessage store s receiverId content (jsOrNull exchangeId) now) :
    wsMessageHandler self (some s) clients store now false
        (InFrame.chat (some s) receiverId content exchangeId) =
      { clientId := some s, clients := clients, store := p.2,
        sent := (self, OutFrame.system "Message sent successfully" (some p.1.id)) ::
          (match clients receiverId with
           | some h => [(h, OutFrame.message p.1)]
           | none => []),
        closed := false } ∧
    p.2.msgs = store.msgs ++ [p.1] ∧ p.1.read = false ∧
    p.1.senderId = s ∧ p.1.receiverId = receiverId := by
  subst hp
  refine ⟨?_, rfl, rfl, rfl, rfl⟩
  unfold wsMessageHandler
  dsimp only
  rw [if_pos ⟨h0, rfl⟩]
  rfl

/-- Witness for C5: user 4 chats to user 5 while user 5 is registered at
handle 2 — exactly one message row appears, the sender is acked with its
id, and exactly one push goes to handle 2. -/
theorem chat_accepted_effects_witness :
    wsMessageHandler 1 (some 4) regUser5At2 emptyMsgStore 3 false
        (InFrame.chat (some 4) 5 "hi" none) =
      { clientId := some 4, clients := regUser5At2,
        store := { msgs := [{ id := 1, senderId := 4, receiverId := 5,
                              exchangeId := none, content := "hi",
                              read := false, createdAt := 3 }], nextId := 2 },
        sent := [(1, OutFrame.system "Message sent successfully" (some 1)),
                 (2, OutFrame.message { id := 1, senderId := 4, receiverId := 5,
                                        exchangeId := none, content := "hi",
                                        read := false, createdAt := 3 })],
        closed := false } ∧
    ({ msgs := [{ id := 1, senderId := 4, receiverId := 5, exchangeId := none,
                  content := "hi", read := false, createdAt := 3 }],
       nextId := 2 } : MsgStore).msgs =
      emptyMsgStore.msgs ++ [{ id := 1, senderId := 4, receiverId := 5,
                               exchangeId := none, content := "hi",
                               read := false, createdAt := 3 }] ∧
    ({ id := 1, senderId := 4, receiverId := 5, exchangeId := none,
       content := "hi", read := false, createdAt := 3 } : Message).read = false ∧
    ({ id := 1, senderId := 4, receiverId := 5, exchangeId := none,
       content := "hi", read := false, createdAt := 3 } : Message).senderId = 4 ∧
    ({ id := 1, senderId := 4, receiverId := 5, exchangeId := none,
       content := "hi", read := false, createdAt := 3 } : Message).receiverId = 5 :=
  chat_accepted_effects 1 regUser5At2 emptyMsgStore 3 4 5 "hi" none
    (by decide) _ rfl

/-- C6: when the persistence call of an accepted chat frame fails, the
sender gets exactly one error frame — no acknowledgment and no push — the
message store is unchanged, and the connection stays open. -/
theorem chat_persist_failure_error_only (self : Nat) (clients : Registry)
    (store : MsgStore) (now : Nat) (s receiverId : Nat) (content : String)
    (exchangeId : Option Nat) (h0 : s ≠ 0) :
    wsMessageHandler self (some s) clients store now true
        (InFrame.chat (some s) receiverId content exchangeId) =
      { clientId := some s, clients := clients, store := store,
        sent := [(self, OutFrame.error "Failed to process message")],
        closed := false } := by
  unfold wsMessageHandler
  dsimp only
  rw [if_pos ⟨h0, rfl⟩]
  rfl

/-- Witness for C6: a failing `createMessage` on an otherwise valid chat
frame yields only the error frame and leaves the store empty. -/
theorem chat_persist_failure_error_only_witness :
    wsMessageHandler 1 (some 4) regUser5At2 emptyMsgStore 3 true
        (InFrame.chat (some 4) 5 "hi" none) =
      { clientId := some 4, clients := regUser5At2, store := emptyMsgStore,
        sent := [(1, OutFrame.error "Failed to process message")],
        closed := false } :=
  chat_persist_failure_error_only 1 regUser5At2 emptyMsgStore 3 4 5 "hi" none
    (by decide)

/-- C9 counterexample: an accepted chat frame with empty content.  The
claim says content is non-empty or the frame is rejected before
persistence; the handler instead persists a message whose content is the
empty string and rejects nothing. -/
theorem empty_content_persisted_cex :
    (wsMessageHandler 1 (some 4) emptyRegistry emptyMsgStore 0 false
        (InFrame.chat (some 4) 5 "" none)).store.msgs =
      [{ id := 1, senderId := 4, receiverId := 5, exchangeId := none,
         content := "", read := false, createdAt := 0 }] ∧
    sendsAnError (wsMessageHandler 1 (some 4) emptyRegistry emptyMsgStore 0
      false (InFrame.chat (some 4) 5 "" none)) = false := by
  refine ⟨?_, ?_⟩ <;> decide

/-- C9 (amended): the relay performs no content validation — an accepted
chat frame is persisted carrying exactly the content string of the frame,
including the empty string. -/
theorem chat_content_unvalidated (self : Nat) (clients : Registry)
    (store : MsgStore) (now : Nat) (s receiverId : Nat) (content : String)
    (exchangeId : Option Nat) (h0 : s ≠ 0) :
    (wsMessageHandler self (some s) clients store now false
        (InFrame.chat (some s) receiverId content exchangeId)).store.msgs =
      store.msgs ++ [(createMessage store s receiverId content
        (jsOrNull exchangeId) now).1] ∧
    (createMessage store s receiverId content (jsOrNull exchangeId) now).1.content =
      content := by
  refine ⟨?_, rfl⟩
  unfold wsMessageHandler
  dsimp only
  rw [if_pos ⟨h0, rfl⟩]
  rfl

/-- Witness for C9 (amended): the empty-content frame of the
counterexample is persisted verbatim. -/
theorem chat_content_unvalidated_witness :
    (wsMessageHandler 1 (some 4) emptyRegistry emptyMsgStore 0 false
        (InFrame.chat (some 4) 5 "" none)).store.msgs =
      emptyMsgStore.msgs ++ [(createMessage emptyMsgStore 4 5 ""
        (jsOrNull none) 0).1] ∧
    (createMessage emptyMsgStore 4 5 "" (jsOrNull none) 0).1.content = "" :=
  chat_content_unvalidated 1 emptyRegistry emptyMsgStore 0 4 5 "" none
    (by decide)

/-- C10: an identify frame whose userId is absent, null or zero (falsy)
changes nothing — no registry update, no change to the connection's
identified userId, no acknowledgment and no error frame — and the
connection stays open. -/
theorem identify_falsy_noop (self : Nat) (clientId : Option Nat)
    (clients : Registry) (store : MsgStore) (now : Nat) (persistFails : Bool)
    (userId : Option Nat) (h : userId = none ∨ userId = some 0) :
    wsMessageHandler self clientId clients store now persistFails
        (InFrame.identify userId) =
      { clientId := clientId, clients := clients, store := store,
        sent := [], closed := false } := by
  rcases h with h | h <;> subst h <;> rfl

/-- Witness for C10: an identify frame with an absent userId on an
identified connection is a complete no-op. -/
theorem identify_falsy_noop_witness :
    wsMessageHandler 1 (some 4) regUser5At2 emptyMsgStore 3 false
        (InFrame.identify none) =
      { clientId := some 4, clients := regUser5At2, store := emptyMsgStore,
        sent := [], closed := false } :=
  identify_falsy_noop 1 (some 4) regUser5At2 emptyMsgStore 3 false none
    (Or.inl rfl)

end SkillSwap
